import Mathlib

/-!
Shallow embedding of the widget-tree builder/binder of `gui.py`
(wijnen/python-gui).  Python dictionaries are modelled as association
lists with unique keys, callbacks as opaque numeric identifiers, and
side effects (setter invocations, reported errors) as explicit traces
in the results.  The gtk toolkit itself is out of scope of the source
and appears only as opaque data (its main loop is a parameter).
-/

namespace PyGui

/-- Values passed around the gui layer: Python scalars, with Python's None
explicit (`pynone`).  The sentinel NO_ARG is modelled as `Option.none`
of `Option PyVal` where it can occur. -/
inductive PyVal where
  | pynone : PyVal
  | str : String → PyVal
  | int : Int → PyVal
  | bool : Bool → PyVal
deriving DecidableEq

/-- Attribute mapping of an element (a Python dict keyed by strings). -/
abbrev Attrs := List (String × String)

/-- Dictionary lookup on an association list, first match. -/
def alookup {α : Type} : List (String × α) → String → Option α
  | [], _ => none
  | p :: rest, k => if p.1 = k then some p.2 else alookup rest k

/-- Dictionary key removal, modelling the side effect of Python dict.pop. -/
def erase_key {α : Type} : List (String × α) → String → List (String × α)
  | [], _ => []
  | p :: rest, k => if p.1 = k then erase_key rest k else p :: erase_key rest k

/-- Dictionary update d[k] = v: overwrite in place if present, else append. -/
def dict_set {α : Type} (d : List (String × α)) (k : String) (v : α) :
    List (String × α) :=
  if (alookup d k).isSome then
    d.map (fun p => if p.1 = k then (k, v) else p)
  else d ++ [(k, v)]

/-- Split a character list at the first colon, mirroring value.find of the
source followed by the two slices. -/
def split_colon : List Char → List Char × Option (List Char)
  | [] => ([], none)
  | c :: rest =>
    if c = ':' then ([], some rest)
    else
      let r := split_colon rest
      (c :: r.1, r.2)

/-- Python value[:pos], value[pos+1:] at the first colon, or the whole value
paired with NO_ARG when there is no colon. -/
def split_default (value : String) : String × Option String :=
  match split_colon value.data with
  | (v, none) => (String.mk v, none)
  | (v, some d) => (String.mk v, some (String.mk d))

/-- Whether a string contains a colon. -/
def has_colon (s : String) : Bool := s.data.any (fun c => c = ':')

/-- Result of the inner get_value helper of Wrapper.register_attribute. -/
structure GetValueRes where
  val : Option (String × Option String)
  attrs : Attrs
  errs : List String
deriving DecidableEq

/-- Model of the inner get_value of Wrapper.register_attribute: pops the
attribute (a side effect that happens before any validity check), maps an
empty value to None, splits off a default suffix, and reports a default
suffix where none is allowed (the source then continues anyway). -/
def get_value (attrs : Attrs) (name : String) (with_default : Bool) :
    GetValueRes :=
  match alookup attrs name with
  | none => ⟨none, attrs, []⟩
  | some value =>
    let attrs' := erase_key attrs name
    if value = "" then ⟨none, attrs', []⟩
    else
      let errs := if !with_default && has_colon value then
          ["value for " ++ name ++ " should not have a default value"]
        else []
      ⟨some (split_default value), attrs', errs⟩

/-- Model of Wrapper.get_attribute: pop with default; an empty value becomes
None (not the default). -/
def get_attribute (attrs : Attrs) (name : String) (default : Option String) :
    Option String × Attrs :=
  match alookup attrs name with
  | none => (default, attrs)
  | some v => (if v = "" then none else some v, erase_key attrs name)

/-- The three binding namespaces of a build session (the gui object's
__get__, __set__ and __event__ dicts).  Callbacks are opaque identifiers
(none models Python None); the second component of an entry is the stored
arg (none models NO_ARG) or a stored constant. -/
structure Gui where
  get_ : List (String × (Option Nat × Option PyVal))
  set_ : List (String × (Option Nat × Option PyVal))
  event_ : List (String × (Option Nat × Option PyVal))
deriving DecidableEq

/-- Whether a name is present in any of the three namespaces. -/
def Gui.registered (g : Gui) (n : String) : Bool :=
  (alookup g.get_ n).isSome || (alookup g.set_ n).isSome ||
    (alookup g.event_ n).isSome

/-- The three get_value calls at the head of register_attribute, with the
attribute mapping threaded through and errors collected in order. -/
structure RAVals where
  gval : Option (String × Option String)
  sval : Option (String × Option String)
  val : Option (String × Option String)
  attrs : Attrs
  errs : List String

/-- First phase of Wrapper.register_attribute: resolve get_<name>,
set_<name> and the unprefixed <name> attributes (each popped from the
element even if the registration is later rejected). -/
def ra_vals (attrs : Attrs) (name : String) : RAVals :=
  let r1 := get_value attrs ("get_" ++ name) false
  let r2 := get_value r1.attrs ("set_" ++ name) true
  let r3 := get_value r2.attrs name true
  ⟨r1.val, r2.val, r3.val, r3.attrs, r1.errs ++ r2.errs ++ r3.errs⟩

/-- Failure of the name-collision assertion of register_attribute for one
resolved value: the value exists, is not anonymous, and its name is
already registered in some namespace. -/
def bad_name (g : Gui) : Option (String × Option String) → Bool
  | none => false
  | some (n, _) => n != "" && g.registered n

/-- Whether a registration name carries the reserved get_/set_ name start. -/
def starts_get_set (name : String) : Bool :=
  name.data.take 4 == "get_".data || name.data.take 4 == "set_".data

/-- Result of register_attribute: remaining attributes, updated registries,
the trace of setter invocations (callback, argument list) performed at
bind time, and the reported errors. -/
structure RegResult where
  attrs : Attrs
  gui : Gui
  calls : List (Option Nat × List PyVal)
  errs : List String

/-- One setter invocation: setcb(v) or setcb(arg, v) when an arg was given. -/
def setter_call (setcb : Option Nat) (arg : Option PyVal) (v : PyVal) :
    Option Nat × List PyVal :=
  (setcb, match arg with | none => [v] | some a => [a, v])

/-- Faithful model of Wrapper.register_attribute (gui.py lines 125-172):
pop the three candidate attributes, reject mixed prefixed/unprefixed use,
reject a resolved name already registered in any namespace, reject a
reserved registration name; otherwise invoke the setter with the inline
default (or else the static default) and record the set and get bindings. -/
def register_attribute (g : Gui) (attrs : Attrs) (name : String)
    (getcb setcb : Option Nat) (arg default : Option PyVal) : RegResult :=
  let v := ra_vals attrs name
  if ¬(v.val = none ∨ (v.gval = none ∧ v.sval = none)) then
    ⟨v.attrs, g, [],
      v.errs ++ ["cannot use both get_ or set_ and non-prefixed value for " ++ name]⟩
  else
    let gval := if v.val.isSome then v.val else v.gval
    let sval := if v.val.isSome then v.val else v.sval
    if bad_name g gval then
      ⟨v.attrs, g, [], v.errs ++ ["gui name is already registered as get, set or event"]⟩
    else if bad_name g sval then
      ⟨v.attrs, g, [], v.errs ++ ["gui name is already registered as get, set or event"]⟩
    else if starts_get_set name then
      ⟨v.attrs, g, [], v.errs ++ ["name " ++ name ++ " must not start with get_ or set_"]⟩
    else
      let scalls : List (Option Nat × List PyVal) :=
        match sval with
        | none => []
        | some (_, some d) => [setter_call setcb arg (PyVal.str d)]
        | some (_, none) =>
          match default with
          | some d => [setter_call setcb arg d]
          | none => []
      let g1 : Gui :=
        match sval with
        | some (sn, _) =>
          if sn ≠ "" then { g with set_ := dict_set g.set_ sn (setcb, arg) } else g
        | none => g
      let g2 : Gui :=
        match gval with
        | some (gn, _) =>
          if gn ≠ "" then { g1 with get_ := dict_set g1.get_ gn (getcb, arg) } else g1
        | none => g1
      ⟨v.attrs, g2, scalls, v.errs⟩

/-- The rejection condition of register_attribute from the claim: a name
collision on the resolved get or set name, or a reserved registration
name (computed over the same resolved values as register_attribute). -/
def reg_reject (g : Gui) (attrs : Attrs) (name : String) : Bool :=
  let v := ra_vals attrs name
  let gval := if v.val.isSome then v.val else v.gval
  let sval := if v.val.isSome then v.val else v.sval
  bad_name g gval || bad_name g sval || starts_get_set name

/-- Model of as_bool on a string: the value, plus the reported error when
the string is neither True nor False (the source then continues). -/
def as_bool (v : String) : Bool × List String :=
  (v = "True",
   if v = "True" ∨ v = "False" then []
   else ["string to be interpreted as bool is not True or False: " ++ v])

/-- Result of building a Setting element (it produces no widget). -/
structure SettingRes where
  attrs : Attrs
  gui : Gui
  errs : List String

/-- Faithful model of the Setting constructor (gui.py lines 420-438).
Note two behaviours of the source kept on purpose: the membership check
before storing tests the literal string "name" against __get__ (not the
variable holding the Setting's name), and only the get namespace is ever
consulted; the store into __get__ happens unconditionally afterwards. -/
def Setting_build (g : Gui) (attrs : Attrs) (nchildren : Nat) : SettingRes :=
  let e1 := if nchildren = 0 then [] else ["Setting needs 0-0 children"]
  let rt := get_attribute attrs "type" (some "str")
  let t := rt.1
  let e2 := if t = some "str" ∨ t = some "bool" ∨ t = some "int" then []
    else ["invalid type for Setting; must be str, int, or bool."]
  let rn := get_attribute rt.2 "name" none
  let rv := get_attribute rn.2 "value" none
  match rn.1 with
  | none => ⟨rv.2, g, e1 ++ e2 ++ ["a Setting without name is useless"]⟩
  | some nm =>
    let pv : PyVal × List String :=
      if t = some "int" then
        match rv.1 with
        | some s =>
          match s.toInt? with
          | some k => (PyVal.int k, [])
          | none => (PyVal.str s, ["unable to parse setting " ++ s ++ " as integer."])
        | none => (PyVal.pynone, ["unable to parse setting as integer."])
      else if t = some "bool" then
        match rv.1 with
        | some s => let r := as_bool s; (PyVal.bool r.1, r.2)
        | none => (PyVal.bool false, [])
      else
        (match rv.1 with | some s => PyVal.str s | none => PyVal.pynone, [])
    let e4 := if (alookup g.get_ "name").isSome then
        ["Setting name " ++ nm ++ " is already used"] else []
    ⟨rv.2, { g with get_ := dict_set g.get_ nm (none, some pv.1) },
     e1 ++ e2 ++ pv.2 ++ e4⟩

/-- Faithful model of the tab-name registration of Wrapper.notebook_add
(gui.py lines 250-254): a child carrying a name attribute (and not a
Setting) has the name popped, checked against __get__ only — the check
merely reports — and then stored into __get__ unconditionally as a
constant getter for the page number. -/
def notebook_tab_name (g : Gui) (c_tag : String) (c_attrs : Attrs)
    (n_pages : Int) : Gui × Attrs × List String :=
  match alookup c_attrs "name" with
  | none => (g, c_attrs, [])
  | some nm =>
    if c_tag = "Setting" then (g, c_attrs, [])
    else
      let errs := if (alookup g.get_ nm).isSome then
          ["tab name " ++ nm ++ " is already defined as a getter"] else []
      ({ g with get_ := dict_set g.get_ nm (none, some (PyVal.int n_pages)) },
       erase_key c_attrs "name", errs)

/-- Result of Wrapper.register_gtk_event: remaining attributes, updated
registries, the user-data value the toolkit signal was connected with
(none when no connection was made), and reported errors. -/
structure EvRegRes where
  attrs : Attrs
  gui : Gui
  connected : Option String
  errs : List String

/-- Faithful model of Wrapper.register_gtk_event (gui.py lines 176-187):
pop the event attribute; if its value is already a get or set name, report
and do nothing; otherwise reserve the event slot [None, None] (keeping an
existing slot) and connect the toolkit signal with the value as user data. -/
def register_gtk_event (g : Gui) (attrs : Attrs) (name : String) : EvRegRes :=
  let r := get_attribute attrs name none
  match r.1 with
  | none => ⟨r.2, g, none, []⟩
  | some value =>
    if (alookup g.get_ value).isSome || (alookup g.set_ value).isSome then
      ⟨r.2, g, none, ["gui event name is already registered as get or set property"]⟩
    else
      let g1 := if (alookup g.event_ value).isSome then g
        else { g with event_ := dict_set g.event_ value (none, none) }
      ⟨r.2, g1, some value, []⟩

/-- An event handler supplied at session construction: either a bare
handler or a (handler, extra) 2-tuple; the extra may itself be None. -/
inductive EventSpec where
  | plain (h : Nat)
  | pair (h : Nat) (x : Option PyVal)
deriving DecidableEq

/-- Faithful model of the handler-assignment loop at the end of
Gui.__init__ (gui.py lines 1074-1085): an undeclared event name is
reported and skipped; otherwise the mutable [handler, extra] slot is
filled (extra None for a bare handler). -/
def assign_events (g : Gui) (evs : List (String × EventSpec)) :
    Gui × List String :=
  evs.foldl
    (fun acc ev =>
      if (alookup acc.1.event_ ev.1).isNone then
        (acc.1, acc.2 ++ ["event name " ++ ev.1 ++ " is not in the gui"])
      else
        match ev.2 with
        | .plain h =>
          ({ acc.1 with event_ := dict_set acc.1.event_ ev.1 (some h, none) }, acc.2)
        | .pair h x =>
          ({ acc.1 with event_ := dict_set acc.1.event_ ev.1 (some h, x) }, acc.2))
    (g, [])

/-- Faithful model of Gui.__event_cb__ (gui.py lines 1123-1130).  The
toolkit invokes the callback with the signal arguments followed by the
connect-time user data (the event name); the source looks up the handler
slot under that last argument, and if a handler is set, appends the extra
argument (when not None) to the argument list and calls the handler with
all but the LAST element of that list.  The result is the performed
handler invocation (handler id, arguments passed), or none. -/
def event_cb (g : Gui) (args : List PyVal) : Option (Nat × List PyVal) :=
  match args.getLast? with
  | some (PyVal.str nm) =>
    match alookup g.event_ nm with
    | some (some f, extra) =>
      let args2 := match extra with
        | some x => args ++ [x]
        | none => args
      some (f, args2.dropLast)
    | _ => none
  | _ => none

/-- The parsed element tree: tag, attribute mapping, ordered children. -/
inductive Elem where
  | mk (tag : String) (attributes : Attrs) (children : List Elem)

def Elem.tag : Elem → String
  | .mk t _ _ => t

def Elem.attributes : Elem → Attrs
  | .mk _ a _ => a

def Elem.children : Elem → List Elem
  | .mk _ _ cs => cs

/-- Macro definitions: name to template body. -/
abbrev Defs := List (String × List Elem)

/-- Attribute substitution of Gui.__copy_def__ for one value: a value with
a colon keeps the caller's full value when the caller's value already has
a colon, else appends the template's default; a plain value matching a
supplied attribute name is replaced by the supplied value. -/
def subst_val (attrs : Attrs) (val : String) : String :=
  match split_default val with
  | (n, some d) =>
    match alookup attrs n with
    | some r => if has_colon r then r else r ++ ":" ++ d
    | none => val
  | (_, none) =>
    match alookup attrs val with
    | some r => r
    | none => val

mutual
/-- Deep copy of one template element with attribute substitution
(Gui.__copy_def__, per element of its loop). -/
def copy_def_elem (attrs : Attrs) : Elem → Elem
  | .mk t a cs =>
    .mk t (a.map (fun p => (p.1, subst_val attrs p.2))) (copy_def attrs cs)

/-- Deep copy of a template body with attribute substitution
(Gui.__copy_def__, gui.py lines 1088-1110). -/
def copy_def (attrs : Attrs) : List Elem → List Elem
  | [] => []
  | t :: ts => copy_def_elem attrs t :: copy_def attrs ts
end

/-- Recursive macro expansion of a child list (Gui.__apply_defs__, gui.py
lines 1111-1122, iterated by the surrounding while loops): an element
whose tag is a known macro is replaced in place by the substituted
template (re-examined, so expansion recurses into spliced content; a
macro reference with children is reported but still replaced); any other
element has its own children expanded.  Fuel bounds the unfolding — the
source would loop forever exactly where the fuel can run out. -/
def apply_defs_list (defs : Defs) : Nat → List Elem → List Elem × List String
  | _, [] => ([], [])
  | 0, c :: rest => (c :: rest, [])
  | n + 1, Elem.mk t a kids :: rest =>
    match alookup defs t with
    | some tpl =>
      let e0 := if kids.isEmpty then [] else ["Macros must not have child elements"]
      let r := apply_defs_list defs n (copy_def a tpl ++ rest)
      (r.1, e0 ++ r.2)
    | none =>
      let rk := apply_defs_list defs n kids
      let rr := apply_defs_list defs n rest
      (Elem.mk t a rk.1 :: rr.1, rk.2 ++ rr.2)

/-- The def-collection loop over the top-level children of the root
(Gui.__init__, gui.py lines 1026-1035): a direct child tagged def records
its children as a macro under its name attribute (and stays in the tree);
any other direct child is macro-expanded with the defs collected so far,
a macro-tagged child being spliced and rescanned in place. -/
def scan_defs : Nat → Defs → List Elem → Defs × List Elem × List String
  | _, defs, [] => (defs, [], [])
  | 0, defs, w :: rest => (defs, w :: rest, [])
  | n + 1, defs, w :: rest =>
    if w.tag = "def" then
      match alookup w.attributes "name" with
      | some nm =>
        let r := scan_defs n (dict_set defs nm w.children) rest
        (r.1, w :: r.2.1, r.2.2)
      | none =>
        let r := scan_defs n defs rest
        (r.1, w :: r.2.1, "def requires a name attribute" :: r.2.2)
    else
      match alookup defs w.tag with
      | some tpl =>
        let e0 := if w.children.isEmpty then []
          else ["Macros must not have child elements"]
        let r := scan_defs n defs (copy_def w.attributes tpl ++ rest)
        (r.1, r.2.1, e0 ++ r.2.2)
      | none =>
        let rk := apply_defs_list defs n w.children
        let r := scan_defs n defs rest
        (r.1, Elem.mk w.tag w.attributes rk.1 :: r.2.1, rk.2 ++ r.2.2)

mutual
/-- Structural size of an element (for fuel bounds). -/
def elem_size : Elem → Nat
  | .mk _ _ cs => 1 + elems_size cs

/-- Structural size of a child list. -/
def elems_size : List Elem → Nat
  | [] => 0
  | c :: cs => elem_size c + elems_size cs
end

mutual
/-- No tag anywhere in the element is a known macro name. -/
def elem_clean (defs : Defs) : Elem → Bool
  | .mk t _ cs => (alookup defs t).isNone && elems_clean defs cs

/-- No tag anywhere in the list is a known macro name. -/
def elems_clean (defs : Defs) : List Elem → Bool
  | [] => true
  | c :: cs => elem_clean defs c && elems_clean defs cs
end

mutual
/-- All attribute values of an element, in document order, nested ones
included. -/
def elem_values : Elem → List String
  | .mk _ a cs => a.map (fun p => p.2) ++ elems_values cs

/-- All attribute values of a child list. -/
def elems_values : List Elem → List String
  | [] => []
  | c :: cs => elem_values c ++ elems_values cs
end

/-- gtk table packing flags (toolkit constants). -/
def GTK_EXPAND : Nat := 1
def GTK_SHRINK : Nat := 2
def GTK_FILL : Nat := 4

/-- Split a character list at every occurrence of a separator (Python
str.split with an explicit separator: n separators give n+1 pieces). -/
def split_on_char (sep : Char) : List Char → List (List Char)
  | [] => [[]]
  | c :: rest =>
    match split_on_char sep rest with
    | [] => [[c]]
    | h :: t => if c = sep then [] :: h :: t else (c :: h) :: t

/-- Faithful model of the option parser inside Wrapper.table_add: split at
commas, drop one empty entry, OR the recognised flags together, report
anything left over. -/
def parse_table_opts (value : String) : Nat × List String :=
  let w0 := ((split_on_char ',' value.data).map String.mk).erase ""
  let v1 := if w0.contains "expand" then GTK_EXPAND else 0
  let w1 := w0.erase "expand"
  let v2 := if w1.contains "fill" then GTK_FILL else 0
  let w2 := w1.erase "fill"
  let v3 := if w2.contains "shrink" then GTK_SHRINK else 0
  let w3 := w2.erase "shrink"
  (v1 ||| v2 ||| v3,
   if w3 = [] then [] else ["invalid options for table"])

/-- Placement data a table child carries after its build (the set_data
slots filled from explicit attributes; none where no attribute was
given). -/
structure TChild where
  xopts : Option Nat
  yopts : Option Nat
  left : Option Int
  right : Option Int
  top : Option Int
  bottom : Option Int
deriving DecidableEq

/-- A table child with no explicit placement attributes. -/
def default_tchild : TChild := ⟨none, none, none, none, none, none⟩

/-- One cell attachment performed by the table (arguments of
target.attach in source order). -/
structure TAttach where
  left : Int
  right : Int
  top : Int
  bottom : Int
  xopts : Nat
  yopts : Nat
deriving DecidableEq

/-- Faithful model of the placement loop of Wrapper.table_add (gui.py
lines 277-357): children built to None are skipped; missing options
default to EXPAND|FILL; a missing left takes the cursor column, right
defaults to left+1, top takes the cursor row, bottom defaults to top+1;
the cursor becomes (right, top) and wraps to (0, top+1) when the column
count is reached. -/
def table_add (cols : Int) : List (Option TChild) → Int → Int → List TAttach
  | [], _, _ => []
  | none :: rest, cx, cy => table_add cols rest cx cy
  | some c :: rest, cx, cy =>
    let xo := c.xopts.getD (GTK_EXPAND ||| GTK_FILL)
    let yo := c.yopts.getD (GTK_EXPAND ||| GTK_FILL)
    let l := c.left.getD cx
    let r := c.right.getD (l + 1)
    let t := c.top.getD cy
    let b := c.bottom.getD (t + 1)
    let nxt : Int × Int := if r ≥ cols then (0, t + 1) else (r, t)
    TAttach.mk l r t b xo yo :: table_add cols rest nxt.1 nxt.2

/-- Session state visible to Gui.__call__: the recorded stop value and the
windows (show flag data, currently-shown bit). -/
structure LoopState where
  loop_return : Option PyVal
  windows : List (Option Bool × Bool)

/-- The run argument of Gui.__call__: True, the string once, or False. -/
inductive RunMode where
  | blocking
  | once
  | halt

/-- Faithful model of Gui.__call__ (gui.py lines 1196-1211).  The toolkit
main loop (and the pending-event flush) is the external collaborator; it
is passed in as a state transformer.  run=True/once shows every window
whose show data is True, runs the loop, and returns the recorded stop
value; run=False records the given value and asks the loop to quit. -/
def gui_call (mainloop : LoopState → LoopState) (st : LoopState)
    (run : RunMode) (ret : Option PyVal) : LoopState × Option PyVal :=
  match run with
  | .halt => ({ st with loop_return := ret }, none)
  | .blocking =>
    let st1 := { st with
      windows := st.windows.map (fun w => if w.1 = some true then (w.1, true) else w) }
    let st2 := mainloop st1
    (st2, st2.loop_return)
  | .once =>
    let st1 := { st with
      windows := st.windows.map (fun w => if w.1 = some true then (w.1, true) else w) }
    let st2 := mainloop st1
    (st2, st2.loop_return)

/-- The external main loop modelled as dispatching a finite sequence of
handler invocations, each a state transformer. -/
def run_loop (handlers : List (LoopState → LoopState)) (st : LoopState) :
    LoopState :=
  handlers.foldl (fun s f => f s) st

/-- Inputs of the post-build validation at the end of Gui.__init__: the
number of windows built, the leftover externally supplied objects, the
registered names per namespace, and the declared name sets. -/
structure PostBuild where
  nwindows : Nat
  gtk_left : List String
  get_names : List String
  set_names : List String
  event_names : List String
  inputs : List String
  outputs : List String
  event_decls : List String

/-- The non-fatal error reports of the post-build validation (gui.py lines
1054-1076), in source order. -/
def post_build_errors (pb : PostBuild) : List String :=
  (if pb.gtk_left = [] then []
   else ["Not all externally provided widgets were used"])
  ++ ((pb.get_names.filter (fun n =>
        !(pb.inputs.contains n ||
          (pb.outputs.contains n && pb.set_names.contains n)))).map
      (fun n => "undeclared name " ++ n ++ " used in the gui"))
  ++ ((pb.set_names.filter (fun n =>
        !((pb.inputs.contains n && pb.get_names.contains n) ||
          pb.outputs.contains n))).map
      (fun n => "undeclared name " ++ n ++ " used in the gui"))
  ++ ((pb.event_names.filter (fun n => !(pb.event_decls.contains n))).map
      (fun n => "undeclared event name " ++ n ++ " used in the gui"))
  ++ (pb.inputs.flatMap (fun i =>
        (pb.outputs.filter (fun o => o == i)).map
          (fun _ => "duplicate name " ++ i ++ " used for input and output")))
  ++ (if pb.inputs.Nodup then [] else ["one or more duplicate names in inputs"])
  ++ (if pb.outputs.Nodup then [] else ["one or more duplicate names in outputs"])
  ++ ((pb.inputs.filter (fun n => !(pb.get_names.contains n))).map
      (fun n => "input name " ++ n ++ " is not in the gui"))
  ++ ((pb.outputs.filter (fun n => !(pb.set_names.contains n))).map
      (fun n => "output name " ++ n ++ " is not in the gui"))
  ++ ((pb.event_decls.filter (fun n => !(pb.event_names.contains n))).map
      (fun n => "event name " ++ n ++ " is not in the gui"))

/-- The full post-build validation (gui.py lines 1049-1076) as a sequence
of (message, fatal) reports: the zero-window assertion carries exit=True
(sys.exit(1) fires right after the message, so nothing follows it); every
other check reports with exit=False and the build continues. -/
def post_build_checks (pb : PostBuild) : List (String × Bool) :=
  if pb.nwindows = 0 then [("there are no gui elements defined", true)]
  else (post_build_errors pb).map (fun m => (m, false))

/-! Helper lemmas about the dictionary model. -/

theorem alookup_erase_key_self {α : Type} (l : List (String × α)) (k : String) :
    alookup (erase_key l k) k = none := by
  induction l with
  | nil => rfl
  | cons p rest ih =>
    by_cases hp : p.1 = k
    · simp [erase_key, hp, ih]
    · simp [erase_key, alookup, hp, ih]

theorem alookup_erase_key_mono {α : Type} (l : List (String × α)) (k j : String)
    (h : alookup l j = none) : alookup (erase_key l k) j = none := by
  induction l with
  | nil => rfl
  | cons p rest ih =>
    by_cases hpj : p.1 = j
    · simp [alookup, hpj] at h
    · simp [alookup, hpj] at h
      by_cases hpk : p.1 = k
      · simp [erase_key, hpk, ih h]
      · simp [erase_key, alookup, hpk, hpj, ih h]

theorem erase_key_of_none {α : Type} (l : List (String × α)) (k : String)
    (h : alookup l k = none) : erase_key l k = l := by
  induction l with
  | nil => rfl
  | cons p rest ih =>
    by_cases hp : p.1 = k
    · simp [alookup, hp] at h
    · simp [alookup, hp] at h
      simp [erase_key, hp, ih h]

theorem erase_key_all {α : Type} (a b c : String) (l : List (String × α))
    (h : ∀ p ∈ l, p.1 = a ∨ p.1 = b ∨ p.1 = c) :
    erase_key (erase_key (erase_key l a) b) c = [] := by
  induction l with
  | nil => rfl
  | cons p rest ih =>
    have hrest := ih (fun q hq => h q (List.mem_cons_of_mem p hq))
    by_cases hpa : p.1 = a
    · rw [show erase_key (p :: rest) a = erase_key rest a by simp [erase_key, hpa]]
      exact hrest
    · rw [show erase_key (p :: rest) a = p :: erase_key rest a by
        simp [erase_key, hpa]]
      by_cases hpb : p.1 = b
      · rw [show erase_key (p :: erase_key rest a) b = erase_key (erase_key rest a) b by
          simp [erase_key, hpb]]
        exact hrest
      · rw [show erase_key (p :: erase_key rest a) b =
            p :: erase_key (erase_key rest a) b by simp [erase_key, hpb]]
        by_cases hpc : p.1 = c
        · rw [show erase_key (p :: erase_key (erase_key rest a) b) c =
              erase_key (erase_key (erase_key rest a) b) c by simp [erase_key, hpc]]
          exact hrest
        · rcases h p (List.mem_cons_self p rest) with h1 | h1 | h1
          · exact absurd h1 hpa
          · exact absurd h1 hpb
          · exact absurd h1 hpc

theorem alookup_dict_set_self {α : Type} (d : List (String × α)) (k : String)
    (v : α) : alookup (dict_set d k v) k = some v := by
  unfold dict_set
  by_cases h : (alookup d k).isSome
  · simp only [h, if_true]
    induction d with
    | nil => simp [alookup] at h
    | cons p rest ih =>
      by_cases hp : p.1 = k
      · simp [alookup, hp]
      · simp [alookup, hp] at h ⊢
        exact ih h
  · simp only [h, if_false]
    induction d with
    | nil => simp [alookup]
    | cons p rest ih =>
      by_cases hp : p.1 = k
      · exfalso
        apply h
        simp [alookup, hp]
      · simp only [alookup, List.cons_append, hp, if_neg hp] at h ⊢
        exact ih h

/-! Helper lemmas about strings. -/

theorem get_str_ne_set_str (s t : String) : ("get_" ++ s) ≠ ("set_" ++ t) := by
  intro h
  have h2 := congrArg String.data h
  rw [String.data_append, String.data_append] at h2
  have h3 : ('g' :: 'e' :: 't' :: '_' :: s.data) = ('s' :: 'e' :: 't' :: '_' :: t.data) := h2
  have h4 : 'g' = 's' := (List.cons.injEq _ _ _ _).mp h3 |>.1
  exact absurd h4 (by decide)

theorem ne_get_self (s : String) : s ≠ "get_" ++ s := by
  intro h
  have h2 : s.data.length = ("get_" ++ s).data.length := by rw [← h]
  rw [String.data_append, List.length_append] at h2
  have h3 : ("get_" : String).data.length = 4 := rfl
  omega

theorem ne_set_self (s : String) : s ≠ "set_" ++ s := by
  intro h
  have h2 : s.data.length = ("set_" ++ s).data.length := by rw [← h]
  rw [String.data_append, List.length_append] at h2
  have h3 : ("set_" : String).data.length = 4 := rfl
  omega

theorem split_colon_no_colon (l : List Char) (h : ∀ c ∈ l, ¬(c = ':')) :
    split_colon l = (l, none) := by
  induction l with
  | nil => rfl
  | cons c rest ih =>
    have hc := h c (List.mem_cons_self c rest)
    have hr := ih (fun d hd => h d (List.mem_cons_of_mem c hd))
    simp [split_colon, hc, hr]

theorem split_default_no_colon (s : String) (h : has_colon s = false) :
    split_default s = (s, none) := by
  unfold has_colon at h
  rw [List.any_eq_false] at h
  unfold split_default
  rw [split_colon_no_colon s.data (fun c hc => by simpa using h c hc)]

/-! Helper lemmas about the first phase of register_attribute. -/

theorem get_value_attrs (attrs : Attrs) (n : String) (w : Bool) :
    (get_value attrs n w).attrs = erase_key attrs n := by
  unfold get_value
  cases h : alookup attrs n with
  | none => simp [erase_key_of_none attrs n h]
  | some v => by_cases hv : v = "" <;> simp [hv]

theorem ra_vals_attrs (attrs : Attrs) (name : String) :
    (ra_vals attrs name).attrs =
      erase_key (erase_key (erase_key attrs ("get_" ++ name)) ("set_" ++ name))
        name := by
  unfold ra_vals
  simp [get_value_attrs]

theorem register_attribute_reject (g : Gui) (attrs : Attrs) (name : String)
    (getcb setcb : Option Nat) (arg default : Option PyVal)
    (h : reg_reject g attrs name = true) :
    ∃ es, register_attribute g attrs name getcb setcb arg default =
      ⟨(ra_vals attrs name).attrs, g, [], es⟩ := by
  unfold reg_reject at h
  unfold register_attribute
  by_cases h1 : ¬((ra_vals attrs name).val = none ∨
      ((ra_vals attrs name).gval = none ∧ (ra_vals attrs name).sval = none))
  · exact ⟨_, by rw [if_pos h1]⟩
  · simp only [if_neg h1]
    simp only [Bool.or_eq_true] at h
    rcases h with (hg | hs) | hst
    · exact ⟨_, by rw [if_pos hg]⟩
    · by_cases hg2 : bad_name g (if (ra_vals attrs name).val.isSome then
          (ra_vals attrs name).val else (ra_vals attrs name).gval) = true
      · exact ⟨_, by rw [if_pos hg2]⟩
      · exact ⟨_, by rw [if_neg hg2, if_pos hs]⟩
    · by_cases hg2 : bad_name g (if (ra_vals attrs name).val.isSome then
          (ra_vals attrs name).val else (ra_vals attrs name).gval) = true
      · exact ⟨_, by rw [if_pos hg2]⟩
      · by_cases hs2 : bad_name g (if (ra_vals attrs name).val.isSome then
            (ra_vals attrs name).val else (ra_vals attrs name).sval) = true
        · exact ⟨_, by rw [if_neg hg2, if_pos hs2]⟩
        · exact ⟨_, by rw [if_neg hg2, if_neg hs2, if_pos hst]⟩

theorem ra_vals_get_single (name n : String) (hn : ¬(n = ""))
    (hc : has_colon n = false) :
    ra_vals [("get_" ++ name, n)] name = ⟨some (n, none), none, none, [], []⟩ := by
  unfold ra_vals get_value
  simp [alookup, erase_key, hn, hc, split_default_no_colon n hc]

theorem ra_vals_set_single (name n : String) (hn : ¬(n = ""))
    (hc : has_colon n = false) :
    ra_vals [("set_" ++ name, n)] name = ⟨none, some (n, none), none, [], []⟩ := by
  have hne : ¬(("set_" ++ name) = ("get_" ++ name)) :=
    fun h => get_str_ne_set_str name name h.symm
  unfold ra_vals get_value
  simp [alookup, erase_key, hn, hc, hne, split_default_no_colon n hc]

theorem ra_vals_plain_single (name v : String) (hv : ¬(v = "")) :
    ra_vals [(name, v)] name = ⟨none, none, some (split_default v), [], []⟩ := by
  have h1 : ¬(name = ("get_" ++ name)) := ne_get_self name
  have h2 : ¬(name = ("set_" ++ name)) := ne_set_self name
  unfold ra_vals get_value
  simp [alookup, erase_key, hv, h1, h2]

theorem colon_append_ne_empty (n dd : String) : ¬(n ++ ":" ++ dd = "") := by
  intro h
  have h2 := congrArg String.data h
  rw [String.data_append, String.data_append] at h2
  have h3 : (("" : String)).data = [] := rfl
  rw [h3] at h2
  have h4 := (List.append_eq_nil.mp (List.append_eq_nil.mp h2).1).2
  have h5 : ((":" : String)).data = [':'] := rfl
  rw [h5] at h4
  exact absurd h4 (by simp)

theorem register_attribute_get_single (g : Gui) (name n : String)
    (cbg cbs : Option Nat) (a d : Option PyVal)
    (hn : ¬(n = "")) (hc : has_colon n = false)
    (hreg : g.registered n = false) (hname : starts_get_set name = false) :
    register_attribute g [("get_" ++ name, n)] name cbg cbs a d =
      ⟨[], { g with get_ := dict_set g.get_ n (cbg, a) }, [], []⟩ := by
  unfold register_attribute
  rw [ra_vals_get_single name n hn hc]
  simp [bad_name, hreg, hname, hn]

theorem register_attribute_plain_sfx (g : Gui) (name v n dd : String)
    (cbg cbs : Option Nat) (a d : Option PyVal)
    (hv : ¬(v = "")) (hsplit : split_default v = (n, some dd))
    (hn : ¬(n = "")) (hreg : g.registered n = false)
    (hname : starts_get_set name = false) :
    register_attribute g [(name, v)] name cbg cbs a d =
      ⟨[],
       { g with get_ := dict_set g.get_ n (cbg, a),
                set_ := dict_set g.set_ n (cbs, a) },
       [setter_call cbs a (PyVal.str dd)], []⟩ := by
  unfold register_attribute
  rw [ra_vals_plain_single name v hv]
  simp only [hsplit]
  simp [bad_name, hreg, hname, hn]

theorem register_attribute_plain_default (g : Gui) (name v n : String)
    (cbg cbs : Option Nat) (a : Option PyVal) (dv : PyVal)
    (hv : ¬(v = "")) (hsplit : split_default v = (n, none))
    (hn : ¬(n = "")) (hreg : g.registered n = false)
    (hname : starts_get_set name = false) :
    register_attribute g [(name, v)] name cbg cbs a (some dv) =
      ⟨[],
       { g with get_ := dict_set g.get_ n (cbg, a),
                set_ := dict_set g.set_ n (cbs, a) },
       [setter_call cbs a dv], []⟩ := by
  unfold register_attribute
  rw [ra_vals_plain_single name v hv]
  simp only [hsplit]
  simp [bad_name, hreg, hname, hn]

theorem register_attribute_set_single_rejected (g : Gui) (name n : String)
    (cbg cbs : Option Nat) (a d : Option PyVal)
    (hn : ¬(n = "")) (hc : has_colon n = false)
    (hreg : g.registered n = true) :
    register_attribute g [("set_" ++ name, n)] name cbg cbs a d =
      ⟨[], g, [], ["gui name is already registered as get, set or event"]⟩ := by
  have hb : (n != "") = true := by simp [hn]
  unfold register_attribute
  rw [ra_vals_set_single name n hn hc]
  simp [bad_name, hreg, hb]

theorem register_attribute_no_attr (g : Gui) (name : String)
    (cbg cbs : Option Nat) (a d : Option PyVal)
    (hname : starts_get_set name = false) :
    register_attribute g [] name cbg cbs a d = ⟨[], g, [], []⟩ := by
  unfold register_attribute ra_vals get_value
  simp [alookup, bad_name, hname]

/-! The claims. -/

/-- Claim C1 as stated is false: after a get-only registration of a name
in one widget, a set-only registration of the same name in a different
widget does NOT succeed — no set binding is created, the registries stay
unchanged and a collision error is reported, so the pair cannot behave
like a two-way binding. -/
theorem C1_counterexample :
    (register_attribute ⟨[], [], []⟩ [("get_value", "n")] "value"
        (some 1) (some 2) none none).gui = ⟨[("n", (some 1, none))], [], []⟩ ∧
    (register_attribute ⟨[("n", (some 1, none))], [], []⟩ [("set_value", "n")]
        "value" (some 3) (some 4) none none).gui.set_ = [] ∧
    (register_attribute ⟨[("n", (some 1, none))], [], []⟩ [("set_value", "n")]
        "value" (some 3) (some 4) none none).gui
      = ⟨[("n", (some 1, none))], [], []⟩ ∧
    (register_attribute ⟨[("n", (some 1, none))], [], []⟩ [("set_value", "n")]
        "value" (some 3) (some 4) none none).errs
      = ["gui name is already registered as get, set or event"] := by decide

/-- Claim C1 amended: a name bound get-only (via a get_x attribute) in one
widget cannot be bound set-only (via a set_x attribute) in a different
widget during the same build: the first registration succeeds and records
the get binding; the second is reported as a name collision and skipped
(registries unchanged, no setter invoked), exactly as a second get
registration of the same name would be. -/
theorem C1_get_then_set_rejected (g : Gui) (name n : String)
    (cbg1 cbs1 cbg2 cbs2 : Option Nat) (a1 d1 a2 d2 : Option PyVal)
    (hn : ¬(n = "")) (hc : has_colon n = false)
    (hreg : g.registered n = false) (hname : starts_get_set name = false) :
    register_attribute g [("get_" ++ name, n)] name cbg1 cbs1 a1 d1 =
      ⟨[], { g with get_ := dict_set g.get_ n (cbg1, a1) }, [], []⟩ ∧
    register_attribute { g with get_ := dict_set g.get_ n (cbg1, a1) }
        [("set_" ++ name, n)] name cbg2 cbs2 a2 d2 =
      ⟨[], { g with get_ := dict_set g.get_ n (cbg1, a1) }, [],
       ["gui name is already registered as get, set or event"]⟩ := by
  refine ⟨register_attribute_get_single g name n cbg1 cbs1 a1 d1 hn hc hreg hname, ?_⟩
  apply register_attribute_set_single_rejected
  · exact hn
  · exact hc
  · unfold Gui.registered
    simp [alookup_dict_set_self]

/-- Witness for C1_get_then_set_rejected at a concrete two-widget build. -/
theorem C1_get_then_set_rejected_witness :
    (¬(("n" : String) = "") ∧ has_colon "n" = false ∧
      Gui.registered ⟨[], [], []⟩ "n" = false ∧ starts_get_set "value" = false) ∧
    register_attribute ⟨[], [], []⟩ [("get_" ++ "value", "n")] "value"
        (some 1) (some 2) none none =
      ⟨[], { get_ := dict_set [] "n" (some 1, none), set_ := [], event_ := [] },
       [], []⟩ ∧
    register_attribute
        { get_ := dict_set [] "n" (some 1, none), set_ := [], event_ := ([] : List (String × (Option Nat × Option PyVal))) }
        [("set_" ++ "value", "n")] "value" (some 3) (some 4) none none =
      ⟨[], { get_ := dict_set [] "n" (some 1, none), set_ := [], event_ := [] },
       [], ["gui name is already registered as get, set or event"]⟩ :=
  ⟨⟨by decide, by decide, by decide, by decide⟩,
   C1_get_then_set_rejected ⟨[], [], []⟩ "value" "n" (some 1) (some 2)
     (some 3) (some 4) none none none none (by decide) (by decide)
     (by decide) (by decide)⟩

/-- Claim C3 as stated is false in its "if and only if no attribute was
present" half: with no corresponding attribute at all the setter is never
invoked (the static default is NOT applied), while with a plain bound
attribute present the static default IS applied through the setter. -/
theorem C3_counterexample :
    (register_attribute ⟨[], [], []⟩ [] "value" (some 0) (some 1) none
        (some (PyVal.str "D"))).calls = [] ∧
    (register_attribute ⟨[], [], []⟩ [("value", "x")] "value" (some 0) (some 1)
        none (some (PyVal.str "D"))).calls = [(some 1, [PyVal.str "D"])] := by decide

/-- Claim C3 amended: a set-bound attribute value of the form name:default
invokes the setter immediately at bind time with the default literal (the
static default being ignored); the statically supplied default argument
is applied exactly when the attribute is present as a set binding without
an inline default suffix; when no corresponding attribute is present at
all, the setter is not invoked and the static default is not applied. -/
theorem C3_default_application (g : Gui) (name n dd : String)
    (cbg cbs : Option Nat) (dval : PyVal)
    (hn : ¬(n = "")) (hc : has_colon n = false)
    (hsplit : split_default (n ++ ":" ++ dd) = (n, some dd))
    (hreg : g.registered n = false) (hname : starts_get_set name = false) :
    (register_attribute g [(name, n ++ ":" ++ dd)] name cbg cbs none
        (some dval)).calls = [(cbs, [PyVal.str dd])] ∧
    (register_attribute g [(name, n)] name cbg cbs none
        (some dval)).calls = [(cbs, [dval])] ∧
    (register_attribute g [] name cbg cbs none (some dval)).calls = [] := by
  refine ⟨?_, ?_, ?_⟩
  · rw [register_attribute_plain_sfx g name (n ++ ":" ++ dd) n dd
      cbg cbs none (some dval) (colon_append_ne_empty n dd) hsplit hn hreg hname]
    rfl
  · rw [register_attribute_plain_default g name n n cbg cbs none dval
      hn (split_default_no_colon n hc) hn hreg hname]
    rfl
  · rw [register_attribute_no_attr g name cbg cbs none (some dval) hname]

/-- Witness for C3_default_application at a concrete binding. -/
theorem C3_default_application_witness :
    (¬(("x" : String) = "") ∧ has_colon "x" = false ∧
      split_default ("x" ++ ":" ++ "dflt") = ("x", some "dflt") ∧
      Gui.registered ⟨[], [], []⟩ "x" = false ∧ starts_get_set "value" = false) ∧
    (register_attribute ⟨[], [], []⟩ [("value", "x" ++ ":" ++ "dflt")] "value"
        (some 0) (some 1) none (some (PyVal.str "D"))).calls
      = [(some 1, [PyVal.str "dflt"])] ∧
    (register_attribute ⟨[], [], []⟩ [("value", "x")] "value"
        (some 0) (some 1) none (some (PyVal.str "D"))).calls
      = [(some 1, [PyVal.str "D"])] ∧
    (register_attribute ⟨[], [], []⟩ [] "value"
        (some 0) (some 1) none (some (PyVal.str "D"))).calls = [] :=
  ⟨⟨by decide, by decide, by decide, by decide, by decide⟩,
   C3_default_application ⟨[], [], []⟩ "value" "x" "dflt" (some 0) (some 1)
     (PyVal.str "D") (by decide) (by decide) (by decide) (by decide) (by decide)⟩

/-- Claim C10: register_attribute is not atomic on failure.  Whenever the
registration is rejected (name collision on the resolved get or set name,
or a reserved get_/set_ registration name), the three candidate attribute
entries have already been popped from the element's attribute mapping,
the registries are untouched and no setter was invoked; in particular
none of those attributes can later be reported as unused (if they were
the element's only attributes, the mapping is now empty). -/
theorem C10_rejection_not_atomic (g : Gui) (attrs : Attrs) (name : String)
    (getcb setcb : Option Nat) (arg default : Option PyVal)
    (h : reg_reject g attrs name = true) :
    (register_attribute g attrs name getcb setcb arg default).gui = g ∧
    (register_attribute g attrs name getcb setcb arg default).calls = [] ∧
    (register_attribute g attrs name getcb setcb arg default).attrs =
      erase_key (erase_key (erase_key attrs ("get_" ++ name)) ("set_" ++ name))
        name ∧
    alookup (register_attribute g attrs name getcb setcb arg default).attrs
        ("get_" ++ name) = none ∧
    alookup (register_attribute g attrs name getcb setcb arg default).attrs
        ("set_" ++ name) = none ∧
    alookup (register_attribute g attrs name getcb setcb arg default).attrs
        name = none ∧
    ((∀ p ∈ attrs, p.1 = "get_" ++ name ∨ p.1 = "set_" ++ name ∨ p.1 = name) →
      (register_attribute g attrs name getcb setcb arg default).attrs = []) := by
  obtain ⟨es, heq⟩ := register_attribute_reject g attrs name getcb setcb arg default h
  rw [heq]
  have ha := ra_vals_attrs attrs name
  refine ⟨rfl, rfl, ha, ?_, ?_, ?_, ?_⟩
  · rw [ha]
    exact alookup_erase_key_mono _ _ _
      (alookup_erase_key_mono _ _ _ (alookup_erase_key_self attrs _))
  · rw [ha]
    exact alookup_erase_key_mono _ _ _ (alookup_erase_key_self _ _)
  · rw [ha]
    exact alookup_erase_key_self _ _
  · intro hall
    rw [ha]
    exact erase_key_all _ _ _ attrs hall

/-- Witness for C10 at a concrete rejected registration (collision with an
existing get name; the set_value attribute was the element's only
attribute and is gone after the rejection). -/
theorem C10_rejection_not_atomic_witness :
    reg_reject ⟨[("n", (some 1, none))], [], []⟩ [("set_value", "n")] "value"
      = true ∧
    (register_attribute ⟨[("n", (some 1, none))], [], []⟩ [("set_value", "n")]
        "value" (some 3) (some 4) none none).gui
      = ⟨[("n", (some 1, none))], [], []⟩ ∧
    (register_attribute ⟨[("n", (some 1, none))], [], []⟩ [("set_value", "n")]
        "value" (some 3) (some 4) none none).calls = [] ∧
    (register_attribute ⟨[("n", (some 1, none))], [], []⟩ [("set_value", "n")]
        "value" (some 3) (some 4) none none).attrs = [] :=
  ⟨by decide,
   (C10_rejection_not_atomic ⟨[("n", (some 1, none))], [], []⟩ [("set_value", "n")]
     "value" (some 3) (some 4) none none (by decide)).1,
   (C10_rejection_not_atomic ⟨[("n", (some 1, none))], [], []⟩ [("set_value", "n")]
     "value" (some 3) (some 4) none none (by decide)).2.1,
   (C10_rejection_not_atomic ⟨[("n", (some 1, none))], [], []⟩ [("set_value", "n")]
     "value" (some 3) (some 4) none none (by decide)).2.2.2.2.2.2
     (by decide)⟩

/-- Claim C2 holds on its no-extra half and is contradicted by the code on
its extra-argument half: registering the clicked signal of a button under
the event name go and assigning a bare handler, firing the signal (the
toolkit passes only the connect-time user data, the event name) invokes
the handler with zero arguments; but after assigning a (handler, extra)
2-tuple, the dispatcher appends the extra argument to the argument list
and then drops the LAST element, so the handler receives the event name
go — never the registered extra argument e. -/
theorem C2_extra_argument_lost :
    (register_gtk_event ⟨[], [], []⟩ [("clicked", "go")] "clicked").gui.event_
      = [("go", (none, none))] ∧
    event_cb (assign_events
        (register_gtk_event ⟨[], [], []⟩ [("clicked", "go")] "clicked").gui
        [("go", EventSpec.plain 7)]).1 [PyVal.str "go"] = some (7, []) ∧
    event_cb (assign_events
        (register_gtk_event ⟨[], [], []⟩ [("clicked", "go")] "clicked").gui
        [("go", EventSpec.pair 7 (some (PyVal.str "e")))]).1 [PyVal.str "go"]
      = some (7, [PyVal.str "go"]) ∧
    ¬(event_cb (assign_events
        (register_gtk_event ⟨[], [], []⟩ [("clicked", "go")] "clicked").gui
        [("go", EventSpec.pair 7 (some (PyVal.str "e")))]).1 [PyVal.str "go"]
      = some (7, [PyVal.str "e"])) := by decide

/-- Claim C5 is violated by the code: a Setting whose name x is already a
set binding silently adds x to the get namespace with zero errors (the
source tests the literal string "name", and only against __get__); even
when x is an existing getter the Setting overrides it silently; a
notebook tab name that is an existing set binding is stored into the get
namespace without any report; and a tab name that IS an existing getter
is reported but overridden anyway.  Afterwards the name lives in two
namespaces at once, refuting both the at-most-one-namespace invariant and
the reported-and-skipped behaviour. -/
theorem C5_namespace_invariant_violated :
    (Setting_build ⟨[], [("x", (some 0, none))], []⟩
        [("name", "x"), ("value", "foo")] 0).errs = [] ∧
    alookup (Setting_build ⟨[], [("x", (some 0, none))], []⟩
        [("name", "x"), ("value", "foo")] 0).gui.get_ "x"
      = some (none, some (PyVal.str "foo")) ∧
    alookup (Setting_build ⟨[], [("x", (some 0, none))], []⟩
        [("name", "x"), ("value", "foo")] 0).gui.set_ "x"
      = some (some 0, none) ∧
    (Setting_build ⟨[("x", (some 0, none))], [], []⟩
        [("name", "x"), ("value", "foo")] 0).errs = [] ∧
    alookup (Setting_build ⟨[("x", (some 0, none))], [], []⟩
        [("name", "x"), ("value", "foo")] 0).gui.get_ "x"
      = some (none, some (PyVal.str "foo")) ∧
    (notebook_tab_name ⟨[], [("x", (some 0, none))], []⟩ "Entry"
        [("name", "x")] 4).2.2 = [] ∧
    alookup (notebook_tab_name ⟨[], [("x", (some 0, none))], []⟩ "Entry"
        [("name", "x")] 4).1.get_ "x" = some (none, some (PyVal.int 4)) ∧
    (notebook_tab_name ⟨[("x", (some 9, none))], [], []⟩ "Entry"
        [("name", "x")] 4).2.2
      = ["tab name x is already defined as a getter"] ∧
    alookup (notebook_tab_name ⟨[("x", (some 9, none))], [], []⟩ "Entry"
        [("name", "x")] 4).1.get_ "x" = some (none, some (PyVal.int 4)) := by decide

/-- Claim C6: a table with 2 columns and 5 children carrying no explicit
placement attributes attaches them at cells (left,top) =
(0,0),(1,0),(0,1),(1,1),(0,2), each spanning one cell (right=left+1,
bottom=top+1) with the default EXPAND|FILL options: the cursor advances
left to right and wraps to the next row when the column count is
reached; explicit option flags combine by bitwise OR. -/
theorem C6_table_placement :
    table_add 2 (List.replicate 5 (some default_tchild)) 0 0 =
      [⟨0, 1, 0, 1, GTK_EXPAND ||| GTK_FILL, GTK_EXPAND ||| GTK_FILL⟩,
       ⟨1, 2, 0, 1, GTK_EXPAND ||| GTK_FILL, GTK_EXPAND ||| GTK_FILL⟩,
       ⟨0, 1, 1, 2, GTK_EXPAND ||| GTK_FILL, GTK_EXPAND ||| GTK_FILL⟩,
       ⟨1, 2, 1, 2, GTK_EXPAND ||| GTK_FILL, GTK_EXPAND ||| GTK_FILL⟩,
       ⟨0, 1, 2, 3, GTK_EXPAND ||| GTK_FILL, GTK_EXPAND ||| GTK_FILL⟩] ∧
    (parse_table_opts "expand,fill").1 = (GTK_EXPAND ||| GTK_FILL) := by decide

/-- Claim C4 as stated is false: a def element nested below the top level
(here inside a Window) does not declare a macro.  After the
def-collection pass over this tree the macro table is still empty and
the childless element carrying the def's name is left in the tree
unexpanded. -/
theorem C4_counterexample :
    (scan_defs 10 []
      [Elem.mk "Window" []
        [Elem.mk "def" [("name", "m")] [Elem.mk "Label" [("value", "v")] []],
         Elem.mk "m" [("v", "foo")] []]]).1 = [] ∧
    (scan_defs 10 []
      [Elem.mk "Window" []
        [Elem.mk "def" [("name", "m")] [Elem.mk "Label" [("value", "v")] []],
         Elem.mk "m" [("v", "foo")] []]]).2.1 =
      [Elem.mk "Window" []
        [Elem.mk "def" [("name", "m")] [Elem.mk "Label" [("value", "v")] []],
         Elem.mk "m" [("v", "foo")] []]] := ⟨rfl, rfl⟩

/-- Claim C4 amended: only a def element that is a direct child of the
root declares a macro — the scan records name to template and moves on to
the following top-level siblings; within those, any childless element
whose tag is a declared macro name is replaced in place by the macro's
substituted template; the last conjunct demonstrates the two together end
to end, with the reference attribute v="foo" substituted into the
template. -/
theorem C4_toplevel_defs (fuel : Nat) (defs : Defs) (nm : String)
    (tpl rest : List Elem) (t : String) (a : Attrs) :
    scan_defs (fuel + 1) defs (Elem.mk "def" [("name", nm)] tpl :: rest) =
      ((scan_defs fuel (dict_set defs nm tpl) rest).1,
       Elem.mk "def" [("name", nm)] tpl ::
         (scan_defs fuel (dict_set defs nm tpl) rest).2.1,
       (scan_defs fuel (dict_set defs nm tpl) rest).2.2) ∧
    (alookup defs t = some tpl →
      apply_defs_list defs (fuel + 1) (Elem.mk t a [] :: rest) =
        apply_defs_list defs fuel (copy_def a tpl ++ rest)) ∧
    scan_defs 10 []
        [Elem.mk "def" [("name", "m")] [Elem.mk "Label" [("value", "v")] []],
         Elem.mk "Window" [] [Elem.mk "m" [("v", "foo")] []]] =
      ([("m", [Elem.mk "Label" [("value", "v")] []])],
       [Elem.mk "def" [("name", "m")] [Elem.mk "Label" [("value", "v")] []],
        Elem.mk "Window" [] [Elem.mk "Label" [("value", "foo")] []]],
       []) := by
  refine ⟨?_, ?_, ?_⟩
  · simp [scan_defs, Elem.tag, Elem.attributes, Elem.children, alookup]
  · intro h
    simp [apply_defs_list, h]
  · rfl

/-- Witness for C4_toplevel_defs at concrete inputs. -/
theorem C4_toplevel_defs_witness :
    alookup [("m", ([] : List Elem))] "m" = some [] ∧
    apply_defs_list [("m", [])] 3 [Elem.mk "m" [] []] =
      apply_defs_list [("m", [])] 2 (copy_def [] [] ++ []) :=
  ⟨rfl, (C4_toplevel_defs 2 [("m", [])] "x" [] [] "m" []).2.1 rfl⟩

/-- Claim C7: invoking the session with run=False records the stop value
in the loop-return slot; a blocking run=True call whose dispatched
handlers end with a stop request for v returns exactly v, the last value
so recorded, whatever earlier handlers (including earlier stops) did; in
particular stopping with 42 from within a handler dispatched during a
blocking run makes that blocking call return 42. -/
theorem C7_stop_value_returned (st st2 : LoopState)
    (pre : List (LoopState → LoopState)) (v : PyVal) :
    (gui_call (fun s => s) st2 .halt (some v)).1.loop_return = some v ∧
    (gui_call (run_loop (pre ++ [fun s =>
        (gui_call (fun u => u) s .halt (some v)).1])) st
        .blocking none).2 = some v ∧
    (gui_call (run_loop (pre ++ [fun s =>
        (gui_call (fun u => u) s .halt (some (PyVal.int 42))).1])) st
        .blocking none).2 = some (PyVal.int 42) := by
  refine ⟨rfl, ?_, ?_⟩ <;> simp [gui_call, run_loop, List.foldl_append]

/-- Claim C8: when the build produced zero top-level windows, the
post-build validation consists of exactly the fatal report (exit flag
true: the source calls sys.exit(1) right after printing it, so nothing
else runs); with at least one window, every post-build contract
violation is reported with the exit flag false — no other post-build
check terminates the process. -/
theorem C8_zero_windows_fatal (pb : PostBuild) :
    (pb.nwindows = 0 →
      post_build_checks pb = [("there are no gui elements defined", true)]) ∧
    (¬(pb.nwindows = 0) →
      ∀ c ∈ post_build_checks pb, c.2 = false) := by
  constructor
  · intro h
    simp [post_build_checks, h]
  · intro h c hc
    simp only [post_build_checks, if_neg h] at hc
    obtain ⟨m, hm, rfl⟩ := List.mem_map.mp hc
    rfl

/-- Witness for C8_zero_windows_fatal: a zero-window build yields exactly
the fatal report, and a one-window build with an undeclared get name
yields only a non-fatal report. -/
theorem C8_zero_windows_fatal_witness :
    post_build_checks ⟨0, [], [], [], [], [], [], []⟩
      = [("there are no gui elements defined", true)] ∧
    (("undeclared name x used in the gui", false) : String × Bool).2 = false :=
  ⟨(C8_zero_windows_fatal ⟨0, [], [], [], [], [], [], []⟩).1 rfl,
   (C8_zero_windows_fatal ⟨1, [], ["x"], [], [], [], [], []⟩).2 (by decide)
     ("undeclared name x used in the gui", false) (by decide)⟩

theorem apply_defs_clean (defs : Defs) :
    ∀ fuel cs, elems_clean defs cs = true → elems_size cs ≤ fuel →
      apply_defs_list defs fuel cs = (cs, []) := by
  intro fuel
  induction fuel with
  | zero =>
    intro cs hc hs
    cases cs with
    | nil => rfl
    | cons c rest =>
      exfalso
      cases c with
      | mk t a kids =>
        simp [elems_size, elem_size] at hs
  | succ n ih =>
    intro cs hc hs
    cases cs with
    | nil => rfl
    | cons c rest =>
      cases c with
      | mk t a kids =>
        simp [elems_clean, elem_clean] at hc
        obtain ⟨⟨htag, hkids⟩, hrest⟩ := hc
        simp [elems_size, elem_size] at hs
        simp [apply_defs_list, htag, ih kids hkids (by omega),
          ih rest hrest (by omega)]

theorem elems_values_copy (attrs : Attrs) :
    ∀ fuel ts, elems_size ts ≤ fuel →
      elems_values (copy_def attrs ts) =
        (elems_values ts).map (subst_val attrs) := by
  intro fuel
  induction fuel with
  | zero =>
    intro ts h
    cases ts with
    | nil => rfl
    | cons c rest =>
      exfalso
      cases c with
      | mk t a kids => simp [elems_size, elem_size] at h
  | succ n ih =>
    intro ts h
    cases ts with
    | nil => rfl
    | cons c rest =>
      cases c with
      | mk t a kids =>
        simp [elems_size, elem_size] at h
        simp [copy_def, copy_def_elem, elems_values, elem_values,
          ih kids (by omega), ih rest (by omega), List.map_map, Function.comp]

/-- Claim C9: macro expansion is idempotent on an already-expanded tree —
on a tree containing no macro-named tags, expansion (given fuel at least
the tree size; on such a tree the source's loops visit each node exactly
once) returns the tree unchanged with no errors reported — and
substitution is referential: copying a template under a macro reference's
attributes rewrites every attribute value anywhere in the template,
nested descendants included, through subst_val, and a template value
equal to a supplied attribute name x (colon-free) becomes exactly the
supplied value foo at every such occurrence. -/
theorem C9_expansion_idempotent_substitutive :
    (∀ (defs : Defs) (fuel : Nat) (cs : List Elem),
      elems_clean defs cs = true → elems_size cs ≤ fuel →
        apply_defs_list defs fuel cs = (cs, [])) ∧
    (∀ (attrs : Attrs) (ts : List Elem),
      elems_values (copy_def attrs ts) =
        (elems_values ts).map (subst_val attrs)) ∧
    (∀ (attrs : Attrs) (x foo : String),
      alookup attrs x = some foo → has_colon x = false →
        subst_val attrs x = foo) := by
  refine ⟨?_, ?_, ?_⟩
  · intro defs fuel cs
    exact apply_defs_clean defs fuel cs
  · intro attrs ts
    exact elems_values_copy attrs (elems_size ts) ts le_rfl
  · intro attrs x foo hx hc
    unfold subst_val
    rw [split_default_no_colon x hc]
    simp [hx]

/-- Witness for C9 at a concrete macro table, template and substitution. -/
theorem C9_expansion_witness :
    (elems_clean [("m", [])] [Elem.mk "Label" [("value", "v")] []] = true ∧
     elems_size [Elem.mk "Label" [("value", "v")] []] ≤ 5 ∧
     apply_defs_list [("m", [])] 5 [Elem.mk "Label" [("value", "v")] []]
       = ([Elem.mk "Label" [("value", "v")] []], [])) ∧
    elems_values (copy_def [("x", "foo")]
        [Elem.mk "Frame" [("label", "x")] [Elem.mk "Label" [("value", "x")] []]])
      = (elems_values [Elem.mk "Frame" [("label", "x")]
          [Elem.mk "Label" [("value", "x")] []]]).map (subst_val [("x", "foo")]) ∧
    (alookup [("x", "foo")] "x" = some "foo" ∧ has_colon "x" = false ∧
     subst_val [("x", "foo")] "x" = "foo") :=
  ⟨⟨rfl, by decide,
    C9_expansion_idempotent_substitutive.1 [("m", [])] 5
      [Elem.mk "Label" [("value", "v")] []] rfl (by decide)⟩,
   C9_expansion_idempotent_substitutive.2.1 [("x", "foo")]
     [Elem.mk "Frame" [("label", "x")] [Elem.mk "Label" [("value", "x")] []]],
   ⟨rfl, rfl,
    C9_expansion_idempotent_substitutive.2.2 [("x", "foo")] "x" "foo" rfl rfl⟩⟩

end PyGui

